import Mathlib

/-!
Shallow embedding of the documentation-generator pipeline
(`generate_docs_github_copilot.py`): the codebase structural classifier
(`CodebaseAnalyzer.analyze_structure`), the per-file summary extractor
(`get_file_summary`), the prompt assembler (`generate_api_documentation`)
and the Mermaid diagram renderer (`generate_mermaid_diagrams`),
together with theorems settling the frozen claims about them.

Strings are modelled at the code-point level (`List Char`), matching
Python string slicing, containment and splitting semantics used by the
source.
-/

namespace SpringDocs

/-- Predicate `charsMatch p s`: true iff the character list `p` is a leading
segment of `s` (models Python `s.startswith(p)` at the list level). -/
def charsMatch : List Char → List Char → Bool
  | [], _ => true
  | _ :: _, [] => false
  | p :: ps, c :: cs => p == c && charsMatch ps cs

/-- Predicate `charsContain pat s`: true iff `pat` occurs contiguously in `s`
(models Python `pat in s` at the list level). -/
def charsContain (pat : List Char) : List Char → Bool
  | [] => charsMatch pat []
  | c :: cs => charsMatch pat (c :: cs) || charsContain pat cs

/-- Python `pat in s` on strings. -/
def strContains (s pat : String) : Bool := charsContain pat.data s.data

/-- Python `s.startswith(pat)`. -/
def strStartsWith (s pat : String) : Bool := charsMatch pat.data s.data

/-- Python-style `s.endswith(pat)` (used to model the `*.java` glob). -/
def strEndsWith (s pat : String) : Bool :=
  charsMatch pat.data.reverse s.data.reverse

/-- Python `s.lower()` restricted to the character-wise case map. -/
def strToLower (s : String) : String := ⟨s.data.map Char.toLower⟩

/-- Python slice `s[:n]`: the first `n` code points of `s`. -/
def pySlice (n : Nat) (s : String) : String := ⟨s.data.take n⟩

/-- Python whitespace characters stripped by `str.strip()` (ASCII range). -/
def isPyWs (c : Char) : Bool :=
  c == ' ' || c == '\t' || c == '\n' || c == '\r' || c == '\x0b' || c == '\x0c'

/-- Python `s.strip()`. -/
def pyStrip (s : String) : String :=
  ⟨((s.data.dropWhile isPyWs).reverse.dropWhile isPyWs).reverse⟩

/-- Helper for `splitLines`: accumulates the current (reversed) line. -/
def splitLinesAux (cur : List Char) : List Char → List String
  | [] => [⟨cur.reverse⟩]
  | c :: cs =>
    if c == '\n' then String.mk cur.reverse :: splitLinesAux [] cs
    else splitLinesAux (c :: cur) cs

/-- Python `s.split('\n')` (always nonempty; `"" ↦ [""]`). -/
def splitLines (s : String) : List String := splitLinesAux [] s.data

/-- Python `"\n".join(xs)`. -/
def joinNl : List String → String
  | [] => ""
  | [x] => x
  | x :: y :: xs => x ++ "\n" ++ joinNl (y :: xs)

/-- Fuelled worker for `pyReplace`: left-to-right, non-overlapping
replacement of every occurrence, as Python `str.replace`. -/
def pyReplaceAux (pat rep : List Char) : Nat → List Char → List Char
  | 0, s => s
  | _ + 1, [] => []
  | fuel + 1, c :: cs =>
    if charsMatch pat (c :: cs) && !pat.isEmpty then
      rep ++ pyReplaceAux pat rep fuel (List.drop (pat.length - 1) cs)
    else
      c :: pyReplaceAux pat rep fuel cs

/-- Python `s.replace(pat, rep)` for a nonempty `pat` (the source only
uses `".java"`). -/
def pyReplace (s pat rep : String) : String :=
  ⟨pyReplaceAux pat.data rep.data s.data.length s.data⟩

/-- Python `name.replace(".java", "")` as applied to display names. -/
def stripJava (s : String) : String := pyReplace s ".java" ""

/-- Result of `Path.read_text`: the decoded content, or the message of
the raised exception. -/
inductive ReadResult
  | ok (content : String)
  | err (msg : String)
  deriving DecidableEq, Repr

/-- One file of the scanned project tree, as visible to the analyzer:
its base name, the name of its immediate containing directory, its
path relative to the project root, whether it lies under the scanned
subpath `src/main/java`, and the outcome of reading it. -/
structure SrcFile where
  name : String
  parentDir : String
  relPath : String
  underScan : Bool
  readResult : ReadResult
  deriving DecidableEq, Repr

/-- The `file_info` dictionary built per file by `analyze_structure`. -/
structure FileEntry where
  name : String
  path : String
  content : String
  deriving DecidableEq, Repr

/-- Embeds `CodebaseAnalyzer.read_file_content`: the content on success, a
synthetic error-placeholder string on failure. -/
def read_file_content : ReadResult → String
  | .ok c => c
  | .err e => "Error reading file: " ++ e

/-- The `file_info` record `analyze_structure` builds for a file. -/
def fileInfoOf (f : SrcFile) : FileEntry :=
  { name := f.name, path := f.relPath, content := read_file_content f.readResult }

/-- The `structure` dictionary of `analyze_structure`: six named buckets
plus the complete `all_files` list. -/
structure Structure where
  controllers : List FileEntry
  services : List FileEntry
  repositories : List FileEntry
  models : List FileEntry
  dtos : List FileEntry
  config : List FileEntry
  all_files : List FileEntry
  deriving DecidableEq, Repr

/-- The initial, fully empty `structure` dictionary. -/
def emptyStructure : Structure :=
  { controllers := [], services := [], repositories := [], models := []
    dtos := [], config := [], all_files := [] }

/-- The six bucket labels of the Inventory. -/
inductive Bucket
  | controllers | services | repositories | models | dtos | config
  deriving DecidableEq, Repr

/-- Read one named bucket of a `Structure`. -/
def Structure.bucketGet (st : Structure) : Bucket → List FileEntry
  | .controllers => st.controllers
  | .services => st.services
  | .repositories => st.repositories
  | .models => st.models
  | .dtos => st.dtos
  | .config => st.config

/-- The body of `analyze_structure`'s per-file loop: append the file to
`all_files`, then run the `if`/`elif` chain on the lower-cased name of
the immediate containing directory. -/
def addFile (st0 : Structure) (file : SrcFile) : Structure :=
  let file_info := fileInfoOf file
  let st := { st0 with all_files := st0.all_files ++ [file_info] }
  let d := strToLower file.parentDir
  if strContains d "controller" then
    { st with controllers := st.controllers ++ [file_info] }
  else if strContains d "service" then
    { st with services := st.services ++ [file_info] }
  else if strContains d "repository" then
    { st with repositories := st.repositories ++ [file_info] }
  else if strContains d "model" then
    if strContains d "dto" then
      { st with dtos := st.dtos ++ [file_info] }
    else
      { st with models := st.models ++ [file_info] }
  else if strContains d "config" then
    { st with config := st.config ++ [file_info] }
  else st

/-- Python `rglob("*.java")` applied to a file: under the scanned subpath and
matching the extension glob. -/
def matchesJavaGlob (f : SrcFile) : Bool := f.underScan && strEndsWith f.name ".java"

/-- Embeds `CodebaseAnalyzer.find_java_files`: every file under `src/main/java`
matching `*.java`. -/
def find_java_files (tree : List SrcFile) : List SrcFile :=
  tree.filter matchesJavaGlob

/-- Embeds `CodebaseAnalyzer.analyze_structure` over an abstract project tree. -/
def analyze_structure (tree : List SrcFile) : Structure :=
  (find_java_files tree).foldl addFile emptyStructure

/-- Embeds `CodebaseAnalyzer.read_pom_xml`: the manifest text when the file
exists, the empty string otherwise. -/
def read_pom_xml (pomFile : Option String) : String :=
  match pomFile with
  | some content => content
  | none => ""

/-- The trigger of `get_file_summary`'s line filter: after stripping,
the line starts with `@`, `public class` or `public interface`. -/
def isSummaryLine (line : String) : Bool :=
  strStartsWith line "@" || strStartsWith line "public class" ||
    strStartsWith line "public interface"

/-- Embeds `CodebaseAnalyzer.get_file_summary`: header with name and path,
then one bullet per matching line among the first 30 lines. -/
def get_file_summary (file_info : FileEntry) : String :=
  let lines := splitLines file_info.content
  let summary := "**" ++ file_info.name ++ "**\n"
  let summary := summary ++ "Path: `" ++ file_info.path ++ "`\n\n"
  (lines.take 30).foldl
    (fun summary line =>
      let line := pyStrip line
      if isSummaryLine line then summary ++ "- " ++ line ++ "\n" else summary)
    summary

/-- The fixed text of the API-documentation prompt before the embedded
controller code. -/
def apiDocPromptHead : String :=
  "\nAnalyze this Spring Boot REST controller and generate API documentation in Markdown:\n\n"

/-- The fixed text of the API-documentation prompt after the embedded
controller code. -/
def apiDocPromptTail : String :=
  "\n\nInclude:\n1. Base endpoint path\n2. All API endpoints with HTTP methods\n3. Request/Response formats\n4. Path variables and request body parameters\n5. HTTP status codes returned\n6. Example curl requests\n\nFormat as clean Markdown with code blocks for examples.\n"

/-- Embeds `DocumentationGenerator.generate_api_documentation`, with the
external capability `ask_copilot` passed in as an oracle. The second
component is the trace of prompts dispatched to the capability (so a
claim about the number of external calls is statable). -/
def generate_api_documentation (ask : String → String) :
    List FileEntry → String × List String
  | [] => ("No controllers found.", [])
  | controller :: _ =>
    let controller_code := pySlice 2000 controller.content
    let prompt := apiDocPromptHead ++ controller_code ++ apiDocPromptTail
    (ask prompt, [prompt])

/-- Architecture-diagram template up to the presentation-layer nodes. -/
def archSeg1 : String :=
  "\n## System Architecture Diagram\n\n```mermaid\ngraph TB\n    Client[REST Client]\n\n    subgraph \"Presentation Layer\"\n        "

/-- Template between presentation and business layer nodes. -/
def archSeg2 : String :=
  "\n    end\n\n    subgraph \"Business Layer\"\n        "

/-- Template between business and persistence layer nodes. -/
def archSeg3 : String :=
  "\n    end\n\n    subgraph \"Persistence Layer\"\n        "

/-- Template between the persistence nodes and the first pairing-edge
group: the datastore node and the fixed client edge. -/
def archSeg4 : String :=
  "\n    end\n\n    DB[(H2 Database)]\n\n    Client -->|HTTP/REST| C0\n    "

/-- The four-space separator between consecutive joined edge groups. -/
def archSegGap : String := "\n    "

/-- Trailing template of the architecture diagram (style lines). -/
def archSeg5 : String :=
  "\n\n    style Client fill:#e1f5ff\n    style DB fill:#ffe1e1\n```\n"

/-- One presentation-layer node line `C{i}[{name}]`. -/
def nodeLineC (i : Nat) (name : String) : String :=
  "        C" ++ toString i ++ "[" ++ name ++ "]"

/-- One business-layer node line `S{i}[{name}]`. -/
def nodeLineS (i : Nat) (name : String) : String :=
  "        S" ++ toString i ++ "[" ++ name ++ "]"

/-- One persistence-layer node line `R{i}[{name}]`. -/
def nodeLineR (i : Nat) (name : String) : String :=
  "        R" ++ toString i ++ "[" ++ name ++ "]"

/-- One pairing edge `C{i} -->|calls| S{i}`. -/
def edgeLineCS (i : Nat) : String :=
  "    C" ++ toString i ++ " -->|calls| S" ++ toString i

/-- One pairing edge `S{i} -->|uses| R{i}`. -/
def edgeLineSR (i : Nat) : String :=
  "    S" ++ toString i ++ " -->|uses| R" ++ toString i

/-- One datastore edge `R{i} -->|JPA| DB`. -/
def edgeLineRDB (i : Nat) : String :=
  "    R" ++ toString i ++ " -->|JPA| DB"

/-- The fixed sequence-diagram block (`seq_diagram` in the source): a
static five-participant request/response round-trip. -/
def seq_diagram : String :=
  "\n## Request Flow Sequence\n\n```mermaid\nsequenceDiagram\n    participant Client\n    participant Controller\n    participant Service\n    participant Repository\n    participant Database\n\n    Client->>Controller: HTTP Request\n    activate Controller\n    Controller->>Controller: Validate Input\n    Controller->>Service: Call Business Logic\n    activate Service\n    Service->>Repository: Data Access\n    activate Repository\n    Repository->>Database: SQL Query\n    Database-->>Repository: Result Set\n    Repository-->>Service: Domain Object\n    deactivate Repository\n    Service-->>Controller: DTO\n    deactivate Service\n    Controller-->>Client: HTTP Response\n    deactivate Controller\n```\n"

/-- The architecture-diagram block (`arch_diagram` in the source),
rendered from the three display-name lists. -/
def arch_diagram_of (controller_names service_names repo_names : List String) :
    String :=
  archSeg1 ++ joinNl (controller_names.enum.map (fun p => nodeLineC p.1 p.2))
    ++ archSeg2 ++ joinNl (service_names.enum.map (fun p => nodeLineS p.1 p.2))
    ++ archSeg3 ++ joinNl (repo_names.enum.map (fun p => nodeLineR p.1 p.2))
    ++ archSeg4
    ++ joinNl ((List.range (min controller_names.length service_names.length)).map edgeLineCS)
    ++ archSegGap
    ++ joinNl ((List.range (min service_names.length repo_names.length)).map edgeLineSR)
    ++ archSegGap
    ++ joinNl ((List.range repo_names.length).map edgeLineRDB)
    ++ archSeg5

/-- Embeds `generate_mermaid_diagrams`: strip the extension from each display
name, render the architecture diagram, and append the fixed sequence
diagram. (`model_names` is computed by the source but used nowhere.) -/
def generate_mermaid_diagrams (st : Structure) : String :=
  let controller_names := st.controllers.map (fun c => stripJava c.name)
  let service_names := st.services.map (fun s => stripJava s.name)
  let repo_names := st.repositories.map (fun r => stripJava r.name)
  let model_names := st.models.map (fun m => stripJava m.name)
  let arch_diagram := arch_diagram_of controller_names service_names repo_names
  arch_diagram ++ "\n" ++ seq_diagram

/-- The classification rule of §4.1 of the spec, written as the spec
states it: the fixed rule order `controller`, `service`, `repository`,
`model` (with nested `dto` check), `config`, first match wins, applied
to the lower-cased containing-directory name; `none` when no rule
matches. -/
def bucketOf (d : String) : Option Bucket :=
  if strContains d "controller" then some .controllers
  else if strContains d "service" then some .services
  else if strContains d "repository" then some .repositories
  else if strContains d "model" then
    if strContains d "dto" then some .dtos else some .models
  else if strContains d "config" then some .config
  else none

/-- Append an entry to the bucket selected by a classification result
(no bucket when the result is `none`). -/
def applyBucket (st : Structure) (fi : FileEntry) : Option Bucket → Structure
  | some .controllers => { st with controllers := st.controllers ++ [fi] }
  | some .services => { st with services := st.services ++ [fi] }
  | some .repositories => { st with repositories := st.repositories ++ [fi] }
  | some .models => { st with models := st.models ++ [fi] }
  | some .dtos => { st with dtos := st.dtos ++ [fi] }
  | some .config => { st with config := st.config ++ [fi] }
  | none => st

/-- The entries a file list contributes to one named bucket: the files
the rule chain classifies into that bucket, in discovery order. -/
def bucketFiles (b : Bucket) (files : List SrcFile) : List FileEntry :=
  (files.filter
    (fun f => decide (bucketOf (strToLower f.parentDir) = some b))).map fileInfoOf

/-- The files whose containing-directory name matches no rule. -/
def unclassifiedFiles (files : List SrcFile) : List SrcFile :=
  files.filter (fun f => decide (bucketOf (strToLower f.parentDir) = none))

/-- Total number of entries across the six named buckets. -/
def bucketsTotal (st : Structure) : Nat :=
  st.controllers.length + st.services.length + st.repositories.length +
    st.models.length + st.dtos.length + st.config.length

/-- The lines of a digest body, per the spec's description of the
Summary Extractor: the matching lines among the first 30 lines of the
content, stripped, in source order. -/
def digestLines (content : String) : List String :=
  (((splitLines content).take 30).map pyStrip).filter isSummaryLine

/-- Render digest body lines as `- {line}\n` bullets. -/
def bulletsOf : List String → String
  | [] => ""
  | l :: ls => "- " ++ l ++ "\n" ++ bulletsOf ls

/-- A synthetic controller file in a directory whose name matches both
the `controller` and `service` keywords. -/
def ctrlServiceFile : SrcFile :=
  ⟨"A.java", "controllerService", "p", true, .ok ""⟩

/-- A synthetic file in a directory whose name contains `dto` and
`model` but also the earlier keyword `service`. -/
def svcModelDtoFile : SrcFile :=
  ⟨"X.java", "serviceModelDto", "q", true, .ok ""⟩

/-- A synthetic file in a directory whose name contains `dto` and
`model` and none of the earlier keywords. -/
def modelDtoFile : SrcFile :=
  ⟨"Y.java", "modelDto", "r", true, .ok ""⟩

/-- A content whose only annotation line is line 35. -/
def lateAnnContent : String :=
  joinNl (List.replicate 34 "x" ++ ["@GetMapping"])

/-- The end-to-end scenario tree of §8 of the spec: one controller,
one service, one repository file. -/
def scenarioTree : List SrcFile :=
  [⟨"UserController.java", "controller", "a", true, .ok ""⟩,
   ⟨"UserService.java", "service", "b", true, .ok ""⟩,
   ⟨"UserRepository.java", "repository", "c", true, .ok ""⟩]

/-- The per-file loop body agrees with the ordered-rule classifier
`bucketOf`: append to `all_files`, then to the selected bucket. -/
theorem addFile_eq (st : Structure) (f : SrcFile) :
    addFile st f =
      applyBucket { st with all_files := st.all_files ++ [fileInfoOf f] }
        (fileInfoOf f) (bucketOf (strToLower f.parentDir)) := by
  simp only [addFile, bucketOf]
  split_ifs <;> rfl

/-- Lemma: `applyBucket` never touches `all_files`. -/
theorem applyBucket_all_files (st : Structure) (fi : FileEntry)
    (ob : Option Bucket) : (applyBucket st fi ob).all_files = st.all_files := by
  rcases ob with - | b
  · rfl
  · cases b <;> rfl

/-- Reading a bucket after `applyBucket`: the entry lands exactly in
the selected bucket. -/
theorem applyBucket_bucketGet (st : Structure) (fi : FileEntry)
    (ob : Option Bucket) (b : Bucket) :
    (applyBucket st fi ob).bucketGet b =
      st.bucketGet b ++ (if ob = some b then [fi] else []) := by
  rcases ob with - | b'
  · simp [applyBucket]
  · cases b' <;> cases b <;> simp [applyBucket, Structure.bucketGet]

/-- Replacing only `all_files` leaves every named bucket unchanged. -/
theorem bucketGet_set_all_files (st : Structure) (x : List FileEntry) (b : Bucket) :
    ({ st with all_files := x } : Structure).bucketGet b = st.bucketGet b := by
  cases b <;> rfl

/-- Characterization of the classification loop: starting from any
state, `all_files` collects every file in order and each named bucket
collects exactly the files the rule chain sends there. -/
theorem foldl_addFile_char (files : List SrcFile) (st : Structure) :
    (files.foldl addFile st).all_files = st.all_files ++ files.map fileInfoOf
    ∧ ∀ b : Bucket, (files.foldl addFile st).bucketGet b =
        st.bucketGet b ++ bucketFiles b files := by
  induction files generalizing st with
  | nil => simp [bucketFiles]
  | cons f fs ih =>
    simp only [List.foldl_cons]
    obtain ⟨ih1, ih2⟩ := ih (addFile st f)
    constructor
    · rw [ih1, addFile_eq, applyBucket_all_files]
      simp [List.map_cons]
    · intro b
      rw [ih2 b, addFile_eq, applyBucket_bucketGet, bucketGet_set_all_files]
      simp only [bucketFiles, List.filter_cons]
      by_cases h : bucketOf (strToLower f.parentDir) = some b
      · simp [h]
      · simp [h]

/-- One step of the bucket-count recursion. -/
theorem bucketFiles_length_cons (b : Bucket) (f : SrcFile) (fs : List SrcFile) :
    (bucketFiles b (f :: fs)).length =
      (if bucketOf (strToLower f.parentDir) = some b then 1 else 0) +
        (bucketFiles b fs).length := by
  simp only [bucketFiles, List.filter_cons]
  by_cases h : bucketOf (strToLower f.parentDir) = some b <;> simp [h] <;> omega

/-- One step of the unclassified-count recursion. -/
theorem unclassified_length_cons (f : SrcFile) (fs : List SrcFile) :
    (unclassifiedFiles (f :: fs)).length =
      (if bucketOf (strToLower f.parentDir) = none then 1 else 0) +
        (unclassifiedFiles fs).length := by
  simp only [unclassifiedFiles, List.filter_cons]
  by_cases h : bucketOf (strToLower f.parentDir) = none <;> simp [h] <;> omega

/-- Each file lands in exactly one named bucket or in none: the bucket
cardinalities and the unclassified files partition the input. -/
theorem bucket_partition (files : List SrcFile) :
    (bucketFiles .controllers files).length + (bucketFiles .services files).length +
    (bucketFiles .repositories files).length + (bucketFiles .models files).length +
    (bucketFiles .dtos files).length + (bucketFiles .config files).length +
    (unclassifiedFiles files).length = files.length := by
  induction files with
  | nil => rfl
  | cons f fs ih =>
    simp only [bucketFiles_length_cons, unclassified_length_cons, List.length_cons]
    rcases hb : bucketOf (strToLower f.parentDir) with - | b
    · simp only [hb]
      simp
      omega
    · cases b <;> simp only [hb] <;> simp <;> omega

/-- C1: every entry of any named bucket produced by `analyze_structure`
also appears in `all_files`; each discovered file is placed in at most
one named bucket (bucket cardinalities plus the unclassified files
partition the discovered files); and `all_files` has exactly one entry
per file matching the extension glob under the scanned subpath. -/
theorem claim_C1 (tree : List SrcFile) :
    (∀ b : Bucket, ∀ fi ∈ (analyze_structure tree).bucketGet b,
      fi ∈ (analyze_structure tree).all_files)
    ∧ bucketsTotal (analyze_structure tree) +
        (unclassifiedFiles (find_java_files tree)).length =
        (analyze_structure tree).all_files.length
    ∧ (analyze_structure tree).all_files.length =
        (tree.filter matchesJavaGlob).length := by
  obtain ⟨hall, hbuck⟩ := foldl_addFile_char (find_java_files tree) emptyStructure
  have hget : ∀ b : Bucket, (analyze_structure tree).bucketGet b =
      bucketFiles b (find_java_files tree) := by
    intro b
    have := hbuck b
    cases b <;> simpa [emptyStructure, Structure.bucketGet, analyze_structure] using this
  have hAF : (analyze_structure tree).all_files =
      (find_java_files tree).map fileInfoOf := by
    simpa [emptyStructure, analyze_structure] using hall
  refine ⟨?_, ?_, ?_⟩
  · intro b fi hfi
    rw [hget b] at hfi
    rw [hAF]
    simp only [bucketFiles, List.mem_map] at hfi
    obtain ⟨f, hf, rfl⟩ := hfi
    exact List.mem_map.2 ⟨f, List.mem_of_mem_filter hf, rfl⟩
  · have hparts := bucket_partition (find_java_files tree)
    have hc := hget .controllers
    have hs := hget .services
    have hr := hget .repositories
    have hm := hget .models
    have hd := hget .dtos
    have hg := hget .config
    simp only [Structure.bucketGet] at hc hs hr hm hd hg
    rw [hAF]
    simp only [bucketsTotal, hc, hs, hr, hm, hd, hg, List.length_map]
    omega
  · rw [hAF]
    simp [find_java_files]

/-- C2: the classifier evaluates the rules in the fixed order
`controller`, `service`, `repository`, `model` (with nested `dto`
check), `config` against the lower-cased containing-directory name,
first match wins: under each precedence condition exactly the stated
bucket receives the file and every other bucket is unchanged. -/
theorem claim_C2 (st : Structure) (f : SrcFile) :
    (strContains (strToLower f.parentDir) "controller" = true →
      (addFile st f).controllers = st.controllers ++ [fileInfoOf f] ∧
      (addFile st f).services = st.services ∧
      (addFile st f).repositories = st.repositories ∧
      (addFile st f).models = st.models ∧
      (addFile st f).dtos = st.dtos ∧
      (addFile st f).config = st.config)
    ∧ (strContains (strToLower f.parentDir) "controller" = false →
       strContains (strToLower f.parentDir) "service" = true →
      (addFile st f).services = st.services ++ [fileInfoOf f] ∧
      (addFile st f).controllers = st.controllers ∧
      (addFile st f).repositories = st.repositories ∧
      (addFile st f).models = st.models ∧
      (addFile st f).dtos = st.dtos ∧
      (addFile st f).config = st.config)
    ∧ (strContains (strToLower f.parentDir) "controller" = false →
       strContains (strToLower f.parentDir) "service" = false →
       strContains (strToLower f.parentDir) "repository" = true →
      (addFile st f).repositories = st.repositories ++ [fileInfoOf f] ∧
      (addFile st f).controllers = st.controllers ∧
      (addFile st f).services = st.services ∧
      (addFile st f).models = st.models ∧
      (addFile st f).dtos = st.dtos ∧
      (addFile st f).config = st.config)
    ∧ (strContains (strToLower f.parentDir) "controller" = false →
       strContains (strToLower f.parentDir) "service" = false →
       strContains (strToLower f.parentDir) "repository" = false →
       strContains (strToLower f.parentDir) "model" = true →
       strContains (strToLower f.parentDir) "dto" = true →
      (addFile st f).dtos = st.dtos ++ [fileInfoOf f] ∧
      (addFile st f).models = st.models)
    ∧ (strContains (strToLower f.parentDir) "controller" = false →
       strContains (strToLower f.parentDir) "service" = false →
       strContains (strToLower f.parentDir) "repository" = false →
       strContains (strToLower f.parentDir) "model" = true →
       strContains (strToLower f.parentDir) "dto" = false →
      (addFile st f).models = st.models ++ [fileInfoOf f] ∧
      (addFile st f).dtos = st.dtos)
    ∧ (strContains (strToLower f.parentDir) "controller" = false →
       strContains (strToLower f.parentDir) "service" = false →
       strContains (strToLower f.parentDir) "repository" = false →
       strContains (strToLower f.parentDir) "model" = false →
       strContains (strToLower f.parentDir) "config" = true →
      (addFile st f).config = st.config ++ [fileInfoOf f] ∧
      (addFile st f).controllers = st.controllers) := by
  refine ⟨?_, ?_, ?_, ?_, ?_, ?_⟩ <;>
    intros <;> simp_all [addFile]

/-- C2 witness: the spec's own example, a directory named
`controllerService` matching two keywords, resolves to `controllers`
and touches no other bucket. -/
theorem claim_C2_witness :
    (addFile emptyStructure ctrlServiceFile).controllers =
        emptyStructure.controllers ++ [fileInfoOf ctrlServiceFile] ∧
      (addFile emptyStructure ctrlServiceFile).services = emptyStructure.services ∧
      (addFile emptyStructure ctrlServiceFile).repositories = emptyStructure.repositories ∧
      (addFile emptyStructure ctrlServiceFile).models = emptyStructure.models ∧
      (addFile emptyStructure ctrlServiceFile).dtos = emptyStructure.dtos ∧
      (addFile emptyStructure ctrlServiceFile).config = emptyStructure.config :=
  (claim_C2 emptyStructure ctrlServiceFile).1 (by decide)

/-- C3 counterexample: the claim quantifies over every file whose
containing-directory name contains both `dto` and `model`, but a name
that also contains the earlier keyword `service` (here
`serviceModelDto`) lands in `services`, not in `dtos`. -/
theorem claim_C3_counterexample :
    strContains (strToLower svcModelDtoFile.parentDir) "dto" = true ∧
    strContains (strToLower svcModelDtoFile.parentDir) "model" = true ∧
    (analyze_structure [svcModelDtoFile]).dtos = [] ∧
    (analyze_structure [svcModelDtoFile]).services = [fileInfoOf svcModelDtoFile] := by
  decide

/-- C3 (amended): a file whose containing-directory name contains both
`dto` and `model` and none of the earlier keywords `controller`,
`service`, `repository` is placed in `dtos` and not in `models`; and a
`dto`-containing name is never placed in `models` regardless. -/
theorem claim_C3 (st : Structure) (f : SrcFile) :
    (strContains (strToLower f.parentDir) "dto" = true →
      (addFile st f).models = st.models)
    ∧ (strContains (strToLower f.parentDir) "dto" = true →
       strContains (strToLower f.parentDir) "model" = true →
       strContains (strToLower f.parentDir) "controller" = false →
       strContains (strToLower f.parentDir) "service" = false →
       strContains (strToLower f.parentDir) "repository" = false →
      (addFile st f).dtos = st.dtos ++ [fileInfoOf f] ∧
      (addFile st f).models = st.models) := by
  constructor
  · intro hdto
    simp only [addFile]
    split_ifs <;> simp_all
  · intros
    simp_all [addFile]

/-- C3 witness: a directory named `modelDto` (both keywords, no earlier
keyword) lands in `dtos` and leaves `models` untouched. -/
theorem claim_C3_witness :
    ((addFile emptyStructure modelDtoFile).dtos =
        emptyStructure.dtos ++ [fileInfoOf modelDtoFile] ∧
      (addFile emptyStructure modelDtoFile).models = emptyStructure.models) ∧
    (addFile emptyStructure svcModelDtoFile).models = emptyStructure.models :=
  ⟨(claim_C3 emptyStructure modelDtoFile).2 (by decide) (by decide) (by decide)
      (by decide) (by decide),
    (claim_C3 emptyStructure svcModelDtoFile).1 (by decide)⟩

/-- C5: with an empty controllers list, API-documentation generation
returns the literal `"No controllers found."` and dispatches nothing to
the external capability, whatever that capability is. -/
theorem claim_C5 (ask : String → String) :
    generate_api_documentation ask [] = ("No controllers found.", []) ∧
    (generate_api_documentation ask []).2.length = 0 :=
  ⟨rfl, rfl⟩

/-- C6: the API-documentation prompt embeds exactly the first 2000
characters of the first controller's content: the cut is a hard
character cut, content of length 2000 (or shorter) is embedded whole,
and content of length 2001 loses exactly its last character. -/
theorem claim_C6 :
    (∀ (ask : String → String) (c : FileEntry) (rest : List FileEntry),
      (generate_api_documentation ask (c :: rest)).2 =
        [apiDocPromptHead ++ pySlice 2000 c.content ++ apiDocPromptTail])
    ∧ (∀ s : String, (pySlice 2000 s).data = s.data.take 2000)
    ∧ (∀ s : String, s.length ≤ 2000 → pySlice 2000 s = s)
    ∧ (∀ s : String, s.length = 2001 →
        (pySlice 2000 s).length = 2000 ∧ ∃ t : String, s = pySlice 2000 s ++ t)
    ∧ pySlice 2000 (String.mk (List.replicate 2000 'a')) =
        String.mk (List.replicate 2000 'a')
    ∧ pySlice 2000 (String.mk (List.replicate 2001 'a')) =
        String.mk (List.replicate 2000 'a') := by
  refine ⟨fun ask c rest => rfl, fun s => rfl, ?_, ?_, ?_, ?_⟩
  · intro s h
    rcases s with ⟨l⟩
    have h' : l.length ≤ 2000 := h
    show String.mk (l.take 2000) = String.mk l
    rw [List.take_of_length_le h']
  · intro s h
    rcases s with ⟨l⟩
    have h' : l.length = 2001 := h
    refine ⟨?_, ⟨⟨l.drop 2000⟩, ?_⟩⟩
    · show (l.take 2000).length = 2000
      rw [List.length_take, h']
      show min 2000 2001 = 2000
      omega
    · show String.mk l = String.mk (l.take 2000 ++ l.drop 2000)
      rw [List.take_append_drop]
  · show String.mk ((List.replicate 2000 'a').take 2000) = String.mk (List.replicate 2000 'a')
    rw [List.take_replicate, Nat.min_self]
  · show String.mk ((List.replicate 2001 'a').take 2000) = String.mk (List.replicate 2000 'a')
    rw [List.take_replicate]
    have hmin : min 2000 2001 = 2000 := by omega
    rw [hmin]

/-- C6 witness: the embedded-whole and exact-cut hypotheses are
realized, at a short content and at contents of lengths 2000 and
2001. -/
theorem claim_C6_witness :
    pySlice 2000 "short" = "short" ∧
    (pySlice 2000 (String.mk (List.replicate 2001 'b'))).length = 2000 :=
  ⟨claim_C6.2.2.1 "short" (by decide),
    (claim_C6.2.2.2.1 (String.mk (List.replicate 2001 'b'))
      (by show (List.replicate 2001 'b').length = 2001; rw [List.length_replicate])).1⟩

/-- C9: a failed file read yields the synthetic error-placeholder
content and never escapes; classification places the file exactly as it
would on a successful read of the same directory (only the stored
content differs); and a missing build manifest reads as the empty
string. -/
theorem claim_C9 :
    (∀ e : String, read_file_content (.err e) = "Error reading file: " ++ e)
    ∧ (∀ f : SrcFile, ∀ e : String,
        (fileInfoOf ⟨f.name, f.parentDir, f.relPath, f.underScan, .err e⟩).content =
          "Error reading file: " ++ e)
    ∧ (∀ (st : Structure) (f : SrcFile) (r : ReadResult) (b : Bucket),
        ((addFile st ⟨f.name, f.parentDir, f.relPath, f.underScan, r⟩).bucketGet b).length =
          ((addFile st f).bucketGet b).length)
    ∧ read_pom_xml none = "" := by
  refine ⟨fun e => rfl, fun f e => rfl, ?_, rfl⟩
  intro st f r b
  rw [addFile_eq, addFile_eq, applyBucket_bucketGet, applyBucket_bucketGet]
  by_cases h : bucketOf (strToLower f.parentDir) = some b <;>
    simp [h, bucketGet_set_all_files]

/-- C10: the rendered diagram text is a function of the `name` fields
of the controllers, services and repositories buckets alone; two
Inventories agreeing on those three name sequences render identically,
whatever their models, dtos, config, `all_files` or file contents. -/
theorem claim_C10 (st1 st2 : Structure)
    (hc : st1.controllers.map (fun c => c.name) = st2.controllers.map (fun c => c.name))
    (hs : st1.services.map (fun s => s.name) = st2.services.map (fun s => s.name))
    (hr : st1.repositories.map (fun r => r.name) =
      st2.repositories.map (fun r => r.name)) :
    generate_mermaid_diagrams st1 = generate_mermaid_diagrams st2 := by
  have key : ∀ (l1 l2 : List FileEntry),
      l1.map (fun x => x.name) = l2.map (fun x => x.name) →
      l1.map (fun x => stripJava x.name) = l2.map (fun x => stripJava x.name) := by
    intro l1 l2 h
    have : (l1.map (fun x => x.name)).map stripJava =
        (l2.map (fun x => x.name)).map stripJava := by rw [h]
    simpa [List.map_map, Function.comp] using this
  simp only [generate_mermaid_diagrams]
  rw [key _ _ hc, key _ _ hs, key _ _ hr]

/-- C10 witness: two Inventories differing in models and `all_files`
but with equal (empty) controller, service and repository name lists
render byte-identically. -/
theorem claim_C10_witness :
    generate_mermaid_diagrams emptyStructure =
      generate_mermaid_diagrams
        ⟨[], [], [], [⟨"M.java", "q", "zz"⟩], [], [], [⟨"M.java", "q", "zz"⟩]⟩ :=
  claim_C10 _ _ rfl rfl rfl

/-- The summary loop appends one bullet per matching stripped line, in
order, starting from any accumulated text. -/
theorem summary_foldl (ls : List String) (acc : String) :
    ls.foldl (fun summary line =>
      let line := pyStrip line
      if isSummaryLine line then summary ++ "- " ++ line ++ "\n" else summary) acc
    = acc ++ bulletsOf ((ls.map pyStrip).filter isSummaryLine) := by
  induction ls generalizing acc with
  | nil => simp [bulletsOf]
  | cons l ls ih =>
    simp only [List.foldl_cons, List.map_cons, List.filter_cons]
    by_cases h : isSummaryLine (pyStrip l)
    · simp only [h, if_true, ih, bulletsOf]
      simp [String.append_assoc]
    · simp only [h, if_false, ih]
      simp [h]

/-- C7: the summary extractor's digest is the header followed by one
bullet per matching line among the first 30 lines, stripped, in source
order, each emitted exactly once; the digest depends on nothing beyond
the name, the path and the first 30 lines; and a file whose only
annotation line is line 35 yields a digest with no bullet lines. -/
theorem claim_C7 :
    (∀ fi : FileEntry, get_file_summary fi =
      "**" ++ fi.name ++ "**\n" ++ "Path: `" ++ fi.path ++ "`\n\n" ++
        bulletsOf (digestLines fi.content))
    ∧ (∀ fi fj : FileEntry, fi.name = fj.name → fi.path = fj.path →
        (splitLines fi.content).take 30 = (splitLines fj.content).take 30 →
        get_file_summary fi = get_file_summary fj)
    ∧ get_file_summary ⟨"A.java", "p", lateAnnContent⟩ =
        "**A.java**\nPath: `p`\n\n" := by
  have hmain : ∀ fi : FileEntry, get_file_summary fi =
      "**" ++ fi.name ++ "**\n" ++ "Path: `" ++ fi.path ++ "`\n\n" ++
        bulletsOf (digestLines fi.content) := by
    intro fi
    simp only [get_file_summary, digestLines]
    rw [summary_foldl]
  refine ⟨hmain, ?_, ?_⟩
  · intro fi fj hn hp hl
    rw [hmain fi, hmain fj, hn, hp]
    simp only [digestLines, hl]
  · rw [hmain]
    have hdl : digestLines lateAnnContent = [] := by decide
    rw [hdl]
    simp only [bulletsOf]
    rw [String.append_empty]
    decide

/-- C7 witness: two files equal in name, path and first 30 lines but
with different content past line 30 yield the same digest. -/
theorem claim_C7_witness :
    get_file_summary ⟨"B.java", "q", lateAnnContent⟩ =
      get_file_summary
        ⟨"B.java", "q", lateAnnContent ++ "\nignored tail line"⟩ :=
  claim_C7.2.1 _ _ rfl rfl (by decide)

/-- C4: the component graph contains exactly the pairing edges the spec
lists: the fixed client edge to the first presentation node, `C{i}` to
`S{i}` for `i` below `min(#controllers, #services)`, `S{i}` to `R{i}`
for `i` below `min(#services, #repositories)`, and every persistence
node to the datastore; and for the empty Inventory the output renders
(zero layer nodes; the only node-declaration lines are the client and
the datastore; the only pairing edge is the fixed client edge, left
dangling). The scenario tree of one controller, service and repository
yields exactly the edges `Client to C0`, `C0 to S0`, `S0 to R0`,
`R0 to DB`. -/
theorem claim_C4 (st : Structure) :
    (generate_mermaid_diagrams st =
      archSeg1 ++ joinNl ((st.controllers.map (fun c => stripJava c.name)).enum.map
          (fun p => nodeLineC p.1 p.2))
      ++ archSeg2 ++ joinNl ((st.services.map (fun s => stripJava s.name)).enum.map
          (fun p => nodeLineS p.1 p.2))
      ++ archSeg3 ++ joinNl ((st.repositories.map (fun r => stripJava r.name)).enum.map
          (fun p => nodeLineR p.1 p.2))
      ++ archSeg4
      ++ joinNl ((List.range (min st.controllers.length st.services.length)).map edgeLineCS)
      ++ archSegGap
      ++ joinNl ((List.range (min st.services.length st.repositories.length)).map edgeLineSR)
      ++ archSegGap
      ++ joinNl ((List.range st.repositories.length).map edgeLineRDB)
      ++ archSeg5 ++ "\n" ++ seq_diagram)
    ∧ (splitLines (generate_mermaid_diagrams emptyStructure)).filter
        (fun l => strContains l "-->|") = ["    Client -->|HTTP/REST| C0"]
    ∧ (splitLines (generate_mermaid_diagrams emptyStructure)).filter
        (fun l => strContains l "[") =
        ["    Client[REST Client]", "    DB[(H2 Database)]"]
    ∧ (splitLines (generate_mermaid_diagrams (analyze_structure scenarioTree))).filter
        (fun l => strContains l "-->|") =
        ["    Client -->|HTTP/REST| C0", "        C0 -->|calls| S0",
         "        S0 -->|uses| R0", "        R0 -->|JPA| DB"] := by
  refine ⟨?_, by decide, by decide, by decide⟩
  simp only [generate_mermaid_diagrams, arch_diagram_of, List.length_map,
    String.append_assoc]

/-- C8: the diagram renderer is a pure deterministic function of the
Inventory — repeated rendering of the same Inventory is byte-identical —
and the interaction-sequence block is the fixed constant `seq_diagram`,
independent of the Inventory's contents and size. -/
theorem claim_C8 (st : Structure) :
    generate_mermaid_diagrams st = generate_mermaid_diagrams st ∧
    generate_mermaid_diagrams st =
      arch_diagram_of (st.controllers.map (fun c => stripJava c.name))
        (st.services.map (fun s => stripJava s.name))
        (st.repositories.map (fun r => stripJava r.name)) ++ "\n" ++ seq_diagram :=
  ⟨rfl, rfl⟩

end SpringDocs
